import Mathlib

/-!
Verification of the Page Object / fixture layer of a Playwright-based
end-to-end test framework (login, inventory, cart, checkout flows of the
Sauce Demo application).

The development shallowly embeds the Python source: pure string transforms
become Lean functions over `String`/`List Char`, currency/number parsing is
idealized over `ℚ` (Python floats are modelled as exact rationals), code
that can raise returns `Except PyErr`, and stateful page-object methods are
modelled as functions from an abstract DOM/driver state to values plus a
trace of driver commands.
-/

namespace Spec2Proof

/-! ## Models of Python primitives -/

/-- Exception classes that the embedded code can raise.  `timeoutErr` stands
for Playwright's TimeoutError, `valueError` for Python's ValueError (e.g.
`float()`/`int()` on a malformed string), `indexError` for IndexError. -/
inductive PyErr where
  | timeoutErr
  | valueError
  | indexError
  | other (msg : String)
deriving DecidableEq, Repr

/-- Model of a Python `try: body except Exception: handler` block over the
`Except` embedding of fallible code: an error raised by the body is passed
to the handler, a normal result is returned unchanged. -/
def pyTry {ε α : Type} (body : Except ε α) (handler : ε → Except ε α) : Except ε α :=
  match body with
  | Except.ok a => Except.ok a
  | Except.error e => handler e

/-- Discriminator: did the embedded computation finish without raising? -/
def isOkE {ε α : Type} : Except ε α → Bool
  | Except.ok _ => true
  | Except.error _ => false

/-- Model of the `timeout or self.timeout` idiom of BasePage: `None` (and the
falsy value `0`) select the page object's default timeout. -/
def effTimeout (timeout : Option ℕ) (dflt : ℕ) : ℕ :=
  match timeout with
  | none => dflt
  | some 0 => dflt
  | some t => t

/-- Model of Python `str.lower` on one character (ASCII letters; the product
names this framework handles are ASCII). -/
def pyCharLower (c : Char) : Char :=
  if 65 ≤ c.toNat ∧ c.toNat ≤ 90 then Char.ofNat (c.toNat + 32) else c

/-- Model of Python `str.lower`: lowercase every character. -/
def pyLower (s : String) : String := ⟨s.data.map pyCharLower⟩

/-- Model of Python `str.replace(" ", "-")`: replace every space character by
a hyphen (a single-character pattern replace is a per-character map). -/
def pyReplaceSpaceHyphen (s : String) : String :=
  ⟨s.data.map (fun c => if c = ' ' then '-' else c)⟩

/-- Model of Python `abs` on the rational idealization of floats. -/
def pyAbs (q : ℚ) : ℚ := if q < 0 then -q else q

/-- Model of Python `round(x)` (banker's rounding, round-half-to-even),
idealized over ℚ. -/
def pyRoundHalfEven (q : ℚ) : ℤ :=
  let f := ⌊q⌋
  let r := q - f
  if r < 1/2 then f
  else if 1/2 < r then f + 1
  else if f % 2 = 0 then f else f + 1

/-- Model of Python `round(x, 2)`: round to two decimal places. -/
def pyRound2 (q : ℚ) : ℚ := (pyRoundHalfEven (q * 100) : ℚ) / 100

/-- Whitespace characters stripped by Python's `float()`/`int()`. -/
def isPyWs (c : Char) : Bool :=
  c == ' ' || c == '\t' || c == '\n' || c == '\r'

/-- Strip leading and trailing whitespace from a character list. -/
def stripWs (l : List Char) : List Char :=
  ((l.dropWhile isPyWs).reverse.dropWhile isPyWs).reverse

/-- Split a character list at every occurrence of `sep` (model of Python
`str.split(sep)` for a one-character separator). -/
def splitOnChar (sep : Char) : List Char → List (List Char)
  | [] => [[]]
  | c :: cs =>
    if c = sep then [] :: splitOnChar sep cs
    else
      match splitOnChar sep cs with
      | h :: t => (c :: h) :: t
      | [] => [[c]]

/-- Value of a string of decimal digits. -/
def digitsVal (l : List Char) : ℕ :=
  l.foldl (fun a c => a * 10 + (c.toNat - 48)) 0

/-- Check that every character is a decimal digit. -/
def allDigits (l : List Char) : Bool := l.all (fun c => c.isDigit)

/-- Parse an unsigned decimal-literal body (`digits`, `digits.digits`,
`digits.` or `.digits`) as Python `float()` does, `none` on any other
shape. -/
def pyFloatDigits (l : List Char) : Option ℚ :=
  match splitOnChar '.' l with
  | [ipart] =>
    if ipart ≠ [] ∧ allDigits ipart = true then some (digitsVal ipart : ℚ) else none
  | [ipart, fpart] =>
    if (ipart ≠ [] ∨ fpart ≠ []) ∧ allDigits ipart = true ∧ allDigits fpart = true then
      some ((digitsVal ipart : ℚ) + (digitsVal fpart : ℚ) / 10 ^ fpart.length)
    else none
  | _ => none

/-- Model of Python's `float()` builtin on decimal literals (strip
whitespace, optional sign, digits with an optional fraction part); `none`
models a raised ValueError.  Exotic float syntax (exponents, `inf`, `nan`)
is outside the shapes this framework ever renders and is not modelled. -/
def pyFloatParseL (l : List Char) : Option ℚ :=
  match stripWs l with
  | [] => none
  | c :: rest =>
    if c = '-' then (pyFloatDigits rest).map Neg.neg
    else if c = '+' then pyFloatDigits rest
    else pyFloatDigits (c :: rest)

/-- String-level form of `pyFloatParseL`. -/
def pyFloatParse (s : String) : Option ℚ := pyFloatParseL s.data

/-- Parse an unsigned decimal-integer body as Python `int()` does. -/
def pyIntDigits (l : List Char) : Option ℤ :=
  if l ≠ [] ∧ allDigits l = true then some (digitsVal l : ℤ) else none

/-- Model of Python's `int()` builtin on decimal strings; `none` models a
raised ValueError. -/
def pyIntParseL (l : List Char) : Option ℤ :=
  match stripWs l with
  | [] => none
  | c :: rest =>
    if c = '-' then (pyIntDigits rest).map Neg.neg
    else if c = '+' then pyIntDigits rest
    else pyIntDigits (c :: rest)

/-- String-level form of `pyIntParseL`. -/
def pyIntParse (s : String) : Option ℤ := pyIntParseL s.data

/-- Model of Python `price.replace('$', '')`: delete every dollar sign. -/
def pyRemoveDollars (s : String) : String :=
  ⟨s.data.filter (fun c => c != '$')⟩

/-- Model of Python `text.split('$')`. -/
def pySplitDollar (s : String) : List String :=
  (splitOnChar '$' s.data).map (fun l => String.mk l)

/-! ## Abstract DOM / driver state

A `PageDom` models the observable behaviour of the Playwright page the
page objects wrap: what each wait resolves to, what text each locator
holds, and how many elements each selector matches.  Methods with driver
side effects return the list of dispatched `DriverCmd`s. -/

/-- Abstract state of the live page as seen through the driver API. -/
structure PageDom where
  waitVisible : String → ℕ → Except PyErr Unit
  waitHidden : String → ℕ → Except PyErr Unit
  textContent : String → ℕ → Except PyErr (Option String)
  allTexts : String → List String
  elemCount : String → ℕ

/-- Driver commands a page-object action can dispatch. -/
inductive DriverCmd where
  | click (selector : String)
  | clickNth (selector : String) (index : ℕ)
  | fillCmd (selector : String) (value : String)
  | selectOption (selector : String) (value : String)
deriving DecidableEq, Repr

/-- Mutable state a page object owns: the wrapped page handle, its fixed
locator table, its default timeout and its url (BasePage.__init__). -/
structure PageObjectState where
  pageHandle : ℕ
  locators : List (String × String)
  timeout : ℕ
  url : String
deriving DecidableEq, Repr

/-! ## BasePage -/

/-- BasePage.is_visible: wait for the selector to become visible, catching
any exception and converting it to `False` (the `Except`-valued result shows
whether an exception escapes). -/
def BasePage.is_visibleE (d : PageDom) (t0 : ℕ) (selector : String)
    (timeout : Option ℕ) : Except PyErr Bool :=
  pyTry
    (match d.waitVisible selector (effTimeout timeout t0) with
     | Except.ok _ => Except.ok true
     | Except.error e => Except.error e)
    (fun _ => Except.ok false)

/-- BasePage.is_hidden: the same structure for the hidden state. -/
def BasePage.is_hiddenE (d : PageDom) (t0 : ℕ) (selector : String)
    (timeout : Option ℕ) : Except PyErr Bool :=
  pyTry
    (match d.waitHidden selector (effTimeout timeout t0) with
     | Except.ok _ => Except.ok true
     | Except.error e => Except.error e)
    (fun _ => Except.ok false)

/-- Boolean view of `is_visibleE` (which never raises). -/
def BasePage.is_visible (d : PageDom) (t0 : ℕ) (selector : String)
    (timeout : Option ℕ) : Bool :=
  match BasePage.is_visibleE d t0 selector timeout with
  | Except.ok b => b
  | Except.error _ => false

/-- BasePage.get_text: `locator(selector).text_content(timeout) or ""`; the
wait can raise, a `None` text becomes the empty string. -/
def BasePage.get_text (d : PageDom) (t0 : ℕ) (selector : String)
    (timeout : Option ℕ) : Except PyErr String :=
  match d.textContent selector (effTimeout timeout t0) with
  | Except.ok t => Except.ok (t.getD "")
  | Except.error e => Except.error e

/-- BasePage.get_all_texts: `locator(selector).all_text_contents()`. -/
def BasePage.get_all_texts (d : PageDom) (selector : String) : List String :=
  d.allTexts selector

/-- BasePage.get_element_count: `locator(selector).count()`. -/
def BasePage.get_element_count (d : PageDom) (selector : String) : ℕ :=
  d.elemCount selector

/-- BasePage.select_option: dispatch `page.select_option(selector, value)`;
the page object's own state is returned alongside the dispatched command. -/
def BasePage.select_option (self : PageObjectState) (selector : String)
    (value : String) : PageObjectState × List DriverCmd :=
  (self, [DriverCmd.selectOption selector value])

/-! ## InventoryPage -/

def InventoryPage.INVENTORY_CONTAINER : String := ".inventory_container"

def InventoryPage.INVENTORY_ITEM : String := ".inventory_item"

def InventoryPage.INVENTORY_ITEM_NAME : String := ".inventory_item_name"

def InventoryPage.INVENTORY_ITEM_PRICE : String := ".inventory_item_price"

def InventoryPage.ADD_TO_CART_BUTTON : String := "[data-test^=\"add-to-cart\"]"

def InventoryPage.REMOVE_BUTTON : String := "[data-test^=\"remove\"]"

def InventoryPage.SHOPPING_CART_BADGE : String := ".shopping_cart_badge"

def InventoryPage.PRODUCT_SORT_CONTAINER : String := ".product_sort_container"

/-- Shared name-to-identifier transform of the by-name cart operations:
`product_name.lower().replace(" ", "-")`. -/
def productNameSlug (product_name : String) : String :=
  pyReplaceSpaceHyphen (pyLower product_name)

/-- Per-character form of the slug transform (space to hyphen, uppercase
ASCII letters lowercased, everything else untouched). -/
def slugChar (c : Char) : Char := if c = ' ' then '-' else pyCharLower c

/-- Button id built by InventoryPage.add_product_to_cart_by_name:
`f'add-to-cart-{product_name.lower().replace(" ", "-")}'`. -/
def addToCartButtonId (product_name : String) : String :=
  "add-to-cart-" ++ productNameSlug product_name

/-- Button id built by InventoryPage.remove_product_from_cart_by_name and
CartPage.remove_item_by_name: `f'remove-{product_name.lower().replace(" ", "-")}'`. -/
def removeButtonId (product_name : String) : String :=
  "remove-" ++ productNameSlug product_name

/-- Selector template `f'[data-test="{button_id}"]'` the click targets. -/
def dataTestSelector (button_id : String) : String :=
  "[data-test=\"" ++ button_id ++ "\"]"

/-- InventoryPage.add_product_to_cart_by_name: one click on the derived
add-to-cart selector. -/
def InventoryPage.add_product_to_cart_by_name (product_name : String) : List DriverCmd :=
  [DriverCmd.click (dataTestSelector (addToCartButtonId product_name))]

/-- InventoryPage.remove_product_from_cart_by_name: one click on the derived
remove selector. -/
def InventoryPage.remove_product_from_cart_by_name (product_name : String) : List DriverCmd :=
  [DriverCmd.click (dataTestSelector (removeButtonId product_name))]

/-- InventoryPage.is_loaded: a bounded visibility probe on the inventory
container with a 10000 ms timeout. -/
def InventoryPage.is_loadedE (d : PageDom) (t0 : ℕ) : Except PyErr Bool :=
  BasePage.is_visibleE d t0 InventoryPage.INVENTORY_CONTAINER (some 10000)

/-- InventoryPage.get_all_product_names. -/
def InventoryPage.get_all_product_names (d : PageDom) : List String :=
  BasePage.get_all_texts d InventoryPage.INVENTORY_ITEM_NAME

/-- Currency conversion applied by every price query:
`float(price.replace('$', ''))`. -/
def parsePriceText (price : String) : Option ℚ :=
  pyFloatParse (pyRemoveDollars price)

/-- List-comprehension form `[float(price.replace('$','')) for price in texts]`:
the first unparseable text raises ValueError. -/
def parsePrices : List String → Except PyErr (List ℚ)
  | [] => Except.ok []
  | p :: rest =>
    match parsePriceText p with
    | none => Except.error PyErr.valueError
    | some q =>
      match parsePrices rest with
      | Except.ok l => Except.ok (q :: l)
      | Except.error e => Except.error e

/-- InventoryPage.get_all_product_prices. -/
def InventoryPage.get_all_product_prices (d : PageDom) : Except PyErr (List ℚ) :=
  parsePrices (BasePage.get_all_texts d InventoryPage.INVENTORY_ITEM_PRICE)

/-- InventoryPage.get_product_name_by_index:
`names[index] if index < len(names) else ""`. -/
def InventoryPage.get_product_name_by_index (d : PageDom) (index : ℕ) : String :=
  if h : index < (InventoryPage.get_all_product_names d).length then
    (InventoryPage.get_all_product_names d).get ⟨index, h⟩
  else ""

/-- InventoryPage.get_product_price_by_index:
`prices[index] if index < len(prices) else 0.0`. -/
def InventoryPage.get_product_price_by_index (d : PageDom) (index : ℕ) : Except PyErr ℚ :=
  match InventoryPage.get_all_product_prices d with
  | Except.error e => Except.error e
  | Except.ok prices =>
    if h : index < prices.length then Except.ok (prices.get ⟨index, h⟩) else Except.ok 0

/-- InventoryPage.add_product_to_cart_by_index: click the indexed add
button only when the index is in range. -/
def InventoryPage.add_product_to_cart_by_index (d : PageDom) (index : ℕ) : List DriverCmd :=
  if index < d.elemCount InventoryPage.ADD_TO_CART_BUTTON then
    [DriverCmd.clickNth InventoryPage.ADD_TO_CART_BUTTON index]
  else []

/-- InventoryPage.get_cart_item_count: `int(badge text)` when the badge is
visible within a 2000 ms probe, else 0. -/
def InventoryPage.get_cart_item_count (d : PageDom) (t0 : ℕ) : Except PyErr ℤ :=
  if BasePage.is_visible d t0 InventoryPage.SHOPPING_CART_BADGE (some 2000) then
    match BasePage.get_text d t0 InventoryPage.SHOPPING_CART_BADGE none with
    | Except.error e => Except.error e
    | Except.ok count_text =>
      match pyIntParse count_text with
      | some n => Except.ok n
      | none => Except.error PyErr.valueError
  else Except.ok 0

/-- InventoryPage.sort_products: forward the sort token to the sort control
through BasePage.select_option. -/
def InventoryPage.sort_products (self : PageObjectState) (sort_option : String) :
    PageObjectState × List DriverCmd :=
  BasePage.select_option self InventoryPage.PRODUCT_SORT_CONTAINER sort_option

/-! ## CartPage -/

def CartPage.CART_ITEM : String := ".cart_item"

def CartPage.CART_ITEM_NAME : String := ".inventory_item_name"

def CartPage.CART_ITEM_PRICE : String := ".inventory_item_price"

def CartPage.REMOVE_BUTTON : String := "[data-test^=\"remove\"]"

def CartPage.SHOPPING_CART_BADGE : String := ".shopping_cart_badge"

/-- CartPage.get_all_item_prices. -/
def CartPage.get_all_item_prices (d : PageDom) : Except PyErr (List ℚ) :=
  parsePrices (BasePage.get_all_texts d CartPage.CART_ITEM_PRICE)

/-- CartPage.remove_item_by_name: one click on the derived remove selector
(the same id transform as on the inventory page). -/
def CartPage.remove_item_by_name (product_name : String) : List DriverCmd :=
  [DriverCmd.click (dataTestSelector (removeButtonId product_name))]

/-- CartPage.remove_item_by_index: click the indexed remove button only when
the index is in range. -/
def CartPage.remove_item_by_index (d : PageDom) (index : ℕ) : List DriverCmd :=
  if index < d.elemCount CartPage.REMOVE_BUTTON then
    [DriverCmd.clickNth CartPage.REMOVE_BUTTON index]
  else []

/-- CartPage.get_cart_badge_count: identical structure to
InventoryPage.get_cart_item_count. -/
def CartPage.get_cart_badge_count (d : PageDom) (t0 : ℕ) : Except PyErr ℤ :=
  if BasePage.is_visible d t0 CartPage.SHOPPING_CART_BADGE (some 2000) then
    match BasePage.get_text d t0 CartPage.SHOPPING_CART_BADGE none with
    | Except.error e => Except.error e
    | Except.ok count_text =>
      match pyIntParse count_text with
      | some n => Except.ok n
      | none => Except.error PyErr.valueError
  else Except.ok 0

/-! ## CheckoutStepTwoPage -/

def CheckoutStepTwoPage.CART_ITEM_PRICE : String := ".inventory_item_price"

def CheckoutStepTwoPage.SUMMARY_SUBTOTAL : String := ".summary_subtotal_label"

def CheckoutStepTwoPage.SUMMARY_TAX : String := ".summary_tax_label"

def CheckoutStepTwoPage.SUMMARY_TOTAL : String := ".summary_total_label"

/-- Shared extraction `float(text.split('$')[1])` used by get_subtotal,
get_tax and get_total: a missing `'$'` raises IndexError, an unparseable
remainder raises ValueError. -/
def floatAfterDollar (text : String) : Except PyErr ℚ :=
  match (pySplitDollar text)[1]? with
  | none => Except.error PyErr.indexError
  | some part =>
    match pyFloatParse part with
    | none => Except.error PyErr.valueError
    | some q => Except.ok q

/-- CheckoutStepTwoPage.get_subtotal. -/
def CheckoutStepTwoPage.get_subtotal (d : PageDom) (t0 : ℕ) : Except PyErr ℚ :=
  match BasePage.get_text d t0 CheckoutStepTwoPage.SUMMARY_SUBTOTAL none with
  | Except.ok text => floatAfterDollar text
  | Except.error e => Except.error e

/-- CheckoutStepTwoPage.get_tax. -/
def CheckoutStepTwoPage.get_tax (d : PageDom) (t0 : ℕ) : Except PyErr ℚ :=
  match BasePage.get_text d t0 CheckoutStepTwoPage.SUMMARY_TAX none with
  | Except.ok text => floatAfterDollar text
  | Except.error e => Except.error e

/-- CheckoutStepTwoPage.get_total. -/
def CheckoutStepTwoPage.get_total (d : PageDom) (t0 : ℕ) : Except PyErr ℚ :=
  match BasePage.get_text d t0 CheckoutStepTwoPage.SUMMARY_TOTAL none with
  | Except.ok text => floatAfterDollar text
  | Except.error e => Except.error e

/-- CheckoutStepTwoPage.get_all_item_prices. -/
def CheckoutStepTwoPage.get_all_item_prices (d : PageDom) : Except PyErr (List ℚ) :=
  parsePrices (BasePage.get_all_texts d CheckoutStepTwoPage.CART_ITEM_PRICE)

/-- CheckoutStepTwoPage.verify_total_calculation:
`abs(round(subtotal + tax, 2) - total) < 0.01`. -/
def CheckoutStepTwoPage.verify_total_calculation (d : PageDom) (t0 : ℕ) : Except PyErr Bool :=
  match CheckoutStepTwoPage.get_subtotal d t0 with
  | Except.error e => Except.error e
  | Except.ok subtotal =>
    match CheckoutStepTwoPage.get_tax d t0 with
    | Except.error e => Except.error e
    | Except.ok tax =>
      match CheckoutStepTwoPage.get_total d t0 with
      | Except.error e => Except.error e
      | Except.ok total =>
        let calculated_total := pyRound2 (subtotal + tax)
        Except.ok (decide (pyAbs (calculated_total - total) < 1/100))

/-! ## Settings (config/settings.py) -/

/-- Configuration snapshot: the credential-relevant fields of `Settings`.
Field defaults are environment-overridable, so the embedding keeps them
abstract. -/
structure Settings where
  standard_user : String
  locked_user : String
  problem_user : String
  performance_user : String
  error_user : String
  visual_user : String
  default_password : String
deriving DecidableEq, Repr

/-- Dictionary literal `user_map` of Settings.get_user_credentials, in
source order. -/
def Settings.userMap (s : Settings) : List (String × String) :=
  [("standard", s.standard_user),
   ("locked", s.locked_user),
   ("problem", s.problem_user),
   ("performance", s.performance_user),
   ("error", s.error_user),
   ("visual", s.visual_user)]

/-- Settings.get_user_credentials:
`user_map.get(user_type, self.standard_user)` paired with the default
password; a missing key silently falls back to the standard user. -/
def Settings.get_user_credentials (s : Settings) (user_type : String) : String × String :=
  (((s.userMap).lookup user_type).getD s.standard_user, s.default_password)

/-- Default values of the credential fields (pydantic Field defaults). -/
def defaultSettings : Settings where
  standard_user := "standard_user"
  locked_user := "locked_out_user"
  problem_user := "problem_user"
  performance_user := "performance_glitch_user"
  error_user := "error_user"
  visual_user := "visual_user"
  default_password := "secret_sauce"

/-! ## TestDataGenerator (utils/test_data.py)

Faker is an external collaborator.  It is modelled as an abstract
deterministic generator: `seed n` is the state right after `Faker.seed(n)`,
and each provider method maps the locale and current state to an output and
a successor state.  This captures exactly what the code relies on: output
sequences are a pure function of the seed and the locale. -/

/-- Abstract deterministic semantics of the Faker library. -/
structure FakerSem (σ : Type) where
  seed : ℕ → σ
  firstName : String → σ → String × σ
  lastName : String → σ → String × σ
  postcode : String → σ → String × σ
  email : String → σ → String × σ
  password : String → σ → String × σ

/-- CheckoutData dataclass. -/
structure CheckoutData where
  first_name : String
  last_name : String
  postal_code : String
deriving DecidableEq, Repr

/-- UserCredentials dataclass. -/
structure UserCredentials where
  username : String
  password : String
  user_type : String
deriving DecidableEq, Repr

/-- State a TestDataGenerator owns: its Faker locale and the Faker
generator state. -/
structure TestDataGenerator (σ : Type) where
  locale : String
  st : σ

/-- Model of the Python `a or b` default idiom on strings (both `None` and
the empty string fall back to the default). -/
def pyOrStr (a : Option String) (dflt : String) : String :=
  match a with
  | none => dflt
  | some "" => dflt
  | some s => s

/-- TestDataGenerator.__init__: `Faker(locale or settings.locale)` followed
by `Faker.seed(42)`. -/
def TestDataGenerator.init {σ : Type} (F : FakerSem σ) (settingsLocale : String)
    (locale : Option String) : TestDataGenerator σ :=
  { locale := pyOrStr locale settingsLocale, st := F.seed 42 }

/-- TestDataGenerator.generate_checkout_data: first name, last name, postal
code drawn in that order. -/
def TestDataGenerator.generate_checkout_data {σ : Type} (F : FakerSem σ)
    (g : TestDataGenerator σ) : CheckoutData × TestDataGenerator σ :=
  let (fn, s1) := F.firstName g.locale g.st
  let (ln, s2) := F.lastName g.locale s1
  let (pc, s3) := F.postcode g.locale s2
  (⟨fn, ln, pc⟩, { g with st := s3 })

/-- TestDataGenerator.generate_invalid_credentials: five fixed invalid
combinations plus one random pair drawn from Faker. -/
def TestDataGenerator.generate_invalid_credentials {σ : Type} (F : FakerSem σ)
    (g : TestDataGenerator σ) : List UserCredentials × TestDataGenerator σ :=
  let (em, s1) := F.email g.locale g.st
  let (pw, s2) := F.password g.locale s1
  ([⟨"", "", "empty"⟩,
    ⟨"invalid_user", "wrong_pass", "invalid"⟩,
    ⟨"standard_user", "wrong_password", "wrong_password"⟩,
    ⟨"", "secret_sauce", "empty_username"⟩,
    ⟨"standard_user", "", "empty_password"⟩,
    ⟨em, pw, "random"⟩], { g with st := s2 })

/-- Draw `count` postal codes in sequence (TestDataGenerator.generate_postal_codes). -/
def TestDataGenerator.generate_postal_codes {σ : Type} (F : FakerSem σ)
    (g : TestDataGenerator σ) : ℕ → List String × TestDataGenerator σ
  | 0 => ([], g)
  | n + 1 =>
    let (p, s1) := F.postcode g.locale g.st
    let (r, g2) := TestDataGenerator.generate_postal_codes F { g with st := s1 } n
    (p :: r, g2)

/-- Draw `count` (first name, last name) pairs in sequence
(TestDataGenerator.generate_names). -/
def TestDataGenerator.generate_names {σ : Type} (F : FakerSem σ)
    (g : TestDataGenerator σ) : ℕ → List (String × String) × TestDataGenerator σ
  | 0 => ([], g)
  | n + 1 =>
    let (fn, s1) := F.firstName g.locale g.st
    let (ln, s2) := F.lastName g.locale s1
    let (r, g2) := TestDataGenerator.generate_names F { g with st := s2 } n
    ((fn, ln) :: r, g2)

/-- One call of the generation API named by claim C7. -/
inductive TDCall where
  | checkout
  | invalidCreds
  | postals (count : ℕ)
  | nameDraws (count : ℕ)
deriving DecidableEq, Repr

/-- Result of one generation call. -/
inductive TDOut where
  | checkoutOut (c : CheckoutData)
  | credsOut (l : List UserCredentials)
  | postalsOut (l : List String)
  | namesOut (l : List (String × String))
deriving DecidableEq, Repr

/-- Dispatch one generation call on the generator, threading its state. -/
def runCall {σ : Type} (F : FakerSem σ) (g : TestDataGenerator σ) :
    TDCall → TDOut × TestDataGenerator σ
  | TDCall.checkout =>
    let (c, g1) := TestDataGenerator.generate_checkout_data F g
    (TDOut.checkoutOut c, g1)
  | TDCall.invalidCreds =>
    let (l, g1) := TestDataGenerator.generate_invalid_credentials F g
    (TDOut.credsOut l, g1)
  | TDCall.postals n =>
    let (l, g1) := TestDataGenerator.generate_postal_codes F g n
    (TDOut.postalsOut l, g1)
  | TDCall.nameDraws n =>
    let (l, g1) := TestDataGenerator.generate_names F g n
    (TDOut.namesOut l, g1)

/-- Run a sequence of generation calls, collecting the outputs. -/
def runCalls {σ : Type} (F : FakerSem σ) :
    TestDataGenerator σ → List TDCall → List TDOut
  | _, [] => []
  | g, c :: rest =>
    let (o, g1) := runCall F g c
    o :: runCalls F g1 rest

/-- Concrete counter-based Faker semantics used to instantiate the
determinism theorem on a closed input. -/
def natFaker : FakerSem ℕ where
  seed := fun n => n
  firstName := fun _ s => ("fn" ++ toString s, s + 1)
  lastName := fun _ s => ("ln" ++ toString s, s + 1)
  postcode := fun _ s => ("pc" ++ toString s, s + 1)
  email := fun _ s => ("em" ++ toString s, s + 1)
  password := fun _ s => ("pw" ++ toString s, s + 1)

/-! ## Session fixtures (conftest.py) -/

/-- Observable inputs of the page-fixture teardown: whether the report hook
stored a call-phase report and whether it failed, the screenshot feature
flag, and what `page.screenshot` would do. -/
structure TeardownEnv where
  rep_call : Option Bool
  screenshot_on_failure : Bool
  shot : Except PyErr Unit
deriving Repr

/-- Condition `hasattr(request.node, 'rep_call') and request.node.rep_call.failed`. -/
def TeardownEnv.hasFailed (env : TeardownEnv) : Bool :=
  match env.rep_call with
  | some b => b
  | none => false

/-- Observable outcome of the page-fixture teardown. -/
structure PageTeardownResult where
  screenshotSaved : Option String
  warnedScreenshot : Bool
  pageClosed : Bool
deriving DecidableEq, Repr

/-- Teardown half of the `page` fixture: a failure-conditional screenshot
inside `try/except` (a capture error is logged as a warning), then
`page.close()` unconditionally. -/
def pageTeardownE (env : TeardownEnv) (testName : String) :
    Except PyErr PageTeardownResult :=
  match
    pyTry
      (if env.hasFailed && env.screenshot_on_failure then
        match env.shot with
        | Except.ok _ => Except.ok (some ("failure_" ++ testName ++ ".png"), false)
        | Except.error e => Except.error e
      else Except.ok (none, false))
      (fun _ => Except.ok (none, true))
  with
  | Except.ok (saved, warned) =>
    Except.ok { screenshotSaved := saved, warnedScreenshot := warned, pageClosed := true }
  | Except.error e => Except.error e

/-- Observable outcome of the context-fixture teardown. -/
structure ContextTeardownResult where
  traceSaved : Bool
  warnedTrace : Bool
  contextClosed : Bool
deriving DecidableEq, Repr

/-- Teardown half of the `context` fixture: `tracing.stop` inside
`try/except` when tracing is enabled, then `context.close()`
unconditionally. -/
def contextTeardownE (trace_on_failure : Bool) (traceStop : Except PyErr Unit) :
    Except PyErr ContextTeardownResult :=
  match
    (if trace_on_failure then
      pyTry
        (match traceStop with
         | Except.ok _ => Except.ok (true, false)
         | Except.error e => Except.error e)
        (fun _ => Except.ok (false, true))
    else Except.ok (false, false))
  with
  | Except.ok (saved, warned) =>
    Except.ok { traceSaved := saved, warnedTrace := warned, contextClosed := true }
  | Except.error e => Except.error e

/-- Setup half of the `context` fixture: `tracing.start` inside
`try/except`; returns whether tracing started. -/
def contextSetupE (trace_on_failure : Bool) (traceStart : Except PyErr Unit) :
    Except PyErr Bool :=
  if trace_on_failure then
    pyTry
      (match traceStart with
       | Except.ok _ => Except.ok true
       | Except.error e => Except.error e)
      (fun _ => Except.ok false)
  else Except.ok false

/-! ## Concrete page states used by witnesses and counterexamples -/

/-- Checkout overview state rendering subtotal 32.39, tax 2.59,
total 34.98. -/
def demoCheckoutDom : PageDom where
  waitVisible := fun _ _ => Except.ok ()
  waitHidden := fun _ _ => Except.ok ()
  textContent := fun selector _ =>
    if selector = CheckoutStepTwoPage.SUMMARY_SUBTOTAL then
      Except.ok (some "Item total: $32.39")
    else if selector = CheckoutStepTwoPage.SUMMARY_TAX then
      Except.ok (some "Tax: $2.59")
    else if selector = CheckoutStepTwoPage.SUMMARY_TOTAL then
      Except.ok (some "Total: $34.98")
    else Except.ok none
  allTexts := fun _ => []
  elemCount := fun _ => 0

/-- Inventory state whose single rendered price text is not
currency-formatted. -/
def badPriceDom : PageDom where
  waitVisible := fun _ _ => Except.ok ()
  waitHidden := fun _ _ => Except.ok ()
  textContent := fun _ _ => Except.ok none
  allTexts := fun selector =>
    if selector = InventoryPage.INVENTORY_ITEM_PRICE then ["sale!"] else []
  elemCount := fun _ => 1

/-- Page state with a visible cart badge whose text is not a number. -/
def badBadgeDom : PageDom where
  waitVisible := fun _ _ => Except.ok ()
  waitHidden := fun _ _ => Except.ok ()
  textContent := fun selector _ =>
    if selector = InventoryPage.SHOPPING_CART_BADGE then Except.ok (some "x")
    else Except.ok none
  allTexts := fun _ => []
  elemCount := fun _ => 0

/-- Page state with a visible cart badge showing "3". -/
def badgeThreeDom : PageDom where
  waitVisible := fun _ _ => Except.ok ()
  waitHidden := fun _ _ => Except.ok ()
  textContent := fun selector _ =>
    if selector = InventoryPage.SHOPPING_CART_BADGE then Except.ok (some "3")
    else Except.ok none
  allTexts := fun _ => []
  elemCount := fun _ => 0

/-- Concrete page-object state used to instantiate the sort-dispatch
theorem on a closed input. -/
def demoPageState : PageObjectState where
  pageHandle := 0
  locators := [("PRODUCT_SORT_CONTAINER", ".product_sort_container")]
  timeout := 30000
  url := "https://www.saucedemo.com/inventory.html"

/-- Page state where every wait times out and nothing is rendered. -/
def emptyDom : PageDom where
  waitVisible := fun _ _ => Except.error PyErr.timeoutErr
  waitHidden := fun _ _ => Except.error PyErr.timeoutErr
  textContent := fun _ _ => Except.error PyErr.timeoutErr
  allTexts := fun _ => []
  elemCount := fun _ => 0

/-! ## Helper lemmas -/

/-- Lowercasing maps a character to a space only if it was a space. -/
theorem pyCharLower_eq_space_iff (c : Char) : pyCharLower c = ' ' ↔ c = ' ' := by
  unfold pyCharLower
  split
  · rename_i h
    constructor
    · intro hc
      exfalso
      obtain ⟨n, hn⟩ : ∃ n, c.toNat = n := ⟨_, rfl⟩
      rw [hn] at h hc
      obtain ⟨h1, h2⟩ := h
      interval_cases n <;> exact absurd hc (by decide)
    · intro hc
      subst hc
      exact absurd h (by decide)
  · exact Iff.rfl

/-- Replace-after-lower is the per-character slug transform. -/
theorem slugChar_comp (c : Char) :
    (if pyCharLower c = ' ' then '-' else pyCharLower c) = slugChar c := by
  by_cases hc : c = ' '
  · subst hc; decide
  · rw [if_neg (fun h => hc ((pyCharLower_eq_space_iff c).mp h))]
    unfold slugChar
    rw [if_neg hc]

/-- The slug of a name is its per-character image under `slugChar`. -/
theorem productNameSlug_eq_map (n : String) :
    productNameSlug n = String.mk (n.data.map slugChar) := by
  show String.mk ((n.data.map pyCharLower).map (fun c => if c = ' ' then '-' else c)) =
    String.mk (n.data.map slugChar)
  rw [List.map_map]
  have hf : ((fun c => if c = ' ' then '-' else c) ∘ pyCharLower) = slugChar :=
    funext fun c => slugChar_comp c
  rw [hf]

/-- Python `abs` agrees with the mathematical absolute value on ℚ. -/
theorem pyAbs_eq_abs (q : ℚ) : pyAbs q = |q| := by
  unfold pyAbs
  split
  · exact (abs_of_neg (by assumption)).symm
  · rename_i h
    exact (abs_of_nonneg (not_lt.mp h)).symm

/-- Dropping a prefix by a predicate no element satisfies is the identity. -/
theorem dropWhile_eq_self_of_all {p : Char → Bool} {l : List Char}
    (h : ∀ c ∈ l, p c = false) : l.dropWhile p = l := by
  cases l with
  | nil => rfl
  | cons c cs =>
    rw [List.dropWhile_cons, h c (List.mem_cons_self c cs)]
    simp

/-- Stripping whitespace from a whitespace-free list is the identity. -/
theorem stripWs_eq_self {l : List Char} (h : ∀ c ∈ l, isPyWs c = false) :
    stripWs l = l := by
  unfold stripWs
  rw [dropWhile_eq_self_of_all h,
    dropWhile_eq_self_of_all (fun c hc => h c (List.mem_reverse.mp hc)),
    List.reverse_reverse]

/-- Splitting a list that does not contain the separator yields one part. -/
theorem splitOnChar_of_not_mem {sep : Char} {l : List Char} (h : sep ∉ l) :
    splitOnChar sep l = [l] := by
  induction l with
  | nil => rfl
  | cons c cs ih =>
    have hc : c ≠ sep := fun he => h (he ▸ List.mem_cons_self c cs)
    simp only [splitOnChar, if_neg hc, ih (fun hm => h (List.mem_cons_of_mem c hm))]

/-- Splitting at the first separator occurrence detaches the prefix. -/
theorem splitOnChar_append {sep : Char} {l r : List Char} (h : sep ∉ l) :
    splitOnChar sep (l ++ sep :: r) = l :: splitOnChar sep r := by
  induction l with
  | nil => simp [splitOnChar]
  | cons c cs ih =>
    have hc : c ≠ sep := fun he => h (he ▸ List.mem_cons_self c cs)
    have ih2 := ih (fun hm => h (List.mem_cons_of_mem c hm))
    simp only [List.cons_append, splitOnChar, if_neg hc]
    rw [show cs.append (sep :: r) = cs ++ sep :: r from rfl, ih2]

/-- Distinct digit classes give distinct characters. -/
theorem digit_ne {c x : Char} (hc : c.isDigit = true) (hx : x.isDigit = false) :
    c ≠ x := by
  intro he
  rw [he, hx] at hc
  simp at hc

/-- Decimal digits are not Python whitespace. -/
theorem isPyWs_eq_false_of_digit {c : Char} (h : c.isDigit = true) :
    isPyWs c = false := by
  have h1 : (c == ' ') = false := beq_eq_false_iff_ne.mpr (digit_ne h (by decide))
  have h2 : (c == '\t') = false := beq_eq_false_iff_ne.mpr (digit_ne h (by decide))
  have h3 : (c == '\n') = false := beq_eq_false_iff_ne.mpr (digit_ne h (by decide))
  have h4 : (c == '\r') = false := beq_eq_false_iff_ne.mpr (digit_ne h (by decide))
  simp [isPyWs, h1, h2, h3, h4]

/-! ## Claim theorems -/

/-- C2: the action-button identifier of the by-name cart operations is
exactly the fixed prefix (`add-to-cart-` resp. `remove-`) followed by the
product name transformed per character: every space becomes a hyphen,
uppercase ASCII letters are lowercased, and every other character passes
through unaltered; the by-name operations click exactly the selector built
from that identifier. -/
theorem slug_transform_exact (product_name : String) :
    addToCartButtonId product_name =
      "add-to-cart-" ++ String.mk (product_name.data.map slugChar)
  ∧ removeButtonId product_name =
      "remove-" ++ String.mk (product_name.data.map slugChar)
  ∧ InventoryPage.add_product_to_cart_by_name product_name =
      [DriverCmd.click (dataTestSelector (addToCartButtonId product_name))]
  ∧ CartPage.remove_item_by_name product_name =
      [DriverCmd.click (dataTestSelector (removeButtonId product_name))]
  ∧ slugChar ' ' = '-'
  ∧ (∀ c : Char, c ≠ ' ' → slugChar c = pyCharLower c)
  ∧ (∀ c : Char, ¬(65 ≤ c.toNat ∧ c.toNat ≤ 90) → c ≠ ' ' → slugChar c = c) := by
  refine ⟨?_, ?_, rfl, rfl, by decide, ?_, ?_⟩
  · unfold addToCartButtonId
    rw [productNameSlug_eq_map]
  · unfold removeButtonId
    rw [productNameSlug_eq_map]
  · intro c hc
    unfold slugChar
    rw [if_neg hc]
  · intro c hrange hc
    unfold slugChar pyCharLower
    rw [if_neg hc, if_neg hrange]

/-- Witness for C2 at a concrete product name and a concrete punctuation
character. -/
theorem slug_transform_exact_witness :
    addToCartButtonId "Sauce Labs Bike Light" = "add-to-cart-sauce-labs-bike-light"
  ∧ slugChar '.' = '.' := by
  constructor
  · rw [(slug_transform_exact "Sauce Labs Bike Light").1]
    decide
  · exact (slug_transform_exact "Sauce Labs Bike Light").2.2.2.2.2.2 '.'
      (by decide) (by decide)

/-- C3: credential lookup always returns the default password, maps each of
the six recognized user types to its configured username, and maps every
other string to the standard user without raising. -/
theorem credentials_lookup_total (s : Settings) (user_type : String) :
    (s.get_user_credentials user_type).2 = s.default_password
  ∧ (s.get_user_credentials "standard").1 = s.standard_user
  ∧ (s.get_user_credentials "locked").1 = s.locked_user
  ∧ (s.get_user_credentials "problem").1 = s.problem_user
  ∧ (s.get_user_credentials "performance").1 = s.performance_user
  ∧ (s.get_user_credentials "error").1 = s.error_user
  ∧ (s.get_user_credentials "visual").1 = s.visual_user
  ∧ (user_type ∉ ["standard", "locked", "problem", "performance", "error", "visual"] →
      (s.get_user_credentials user_type).1 = s.standard_user) := by
  refine ⟨rfl, rfl, rfl, rfl, rfl, rfl, rfl, ?_⟩
  intro h
  simp only [List.mem_cons, not_or] at h
  obtain ⟨h1, h2, h3, h4, h5, h6, -⟩ := h
  simp only [Settings.get_user_credentials, Settings.userMap, List.lookup,
    beq_eq_false_iff_ne.mpr h1, beq_eq_false_iff_ne.mpr h2, beq_eq_false_iff_ne.mpr h3,
    beq_eq_false_iff_ne.mpr h4, beq_eq_false_iff_ne.mpr h5, beq_eq_false_iff_ne.mpr h6]
  rfl

/-- Witness for C3 on the default settings: an unrecognized user type falls
back to the standard user, and a recognized one maps to its own user. -/
theorem credentials_lookup_total_witness :
    (defaultSettings.get_user_credentials "nosuch").1 = "standard_user"
  ∧ (defaultSettings.get_user_credentials "nosuch").2 = "secret_sauce"
  ∧ (defaultSettings.get_user_credentials "locked").1 = "locked_out_user" := by
  refine ⟨?_, ?_, ?_⟩
  · exact ((credentials_lookup_total defaultSettings "nosuch").2.2.2.2.2.2.2
      (by decide)).trans rfl
  · exact ((credentials_lookup_total defaultSettings "nosuch").1).trans rfl
  · exact ((credentials_lookup_total defaultSettings "locked").2.2.1).trans rfl

/-- C7: construction pins the generator state to the seeded state
`Faker.seed 42`, so two generators built with the same locale yield
identical outputs on any identical sequence of generation calls. -/
theorem test_data_deterministic (σ : Type) (F : FakerSem σ) (settingsLocale : String)
    (loc1 loc2 : Option String) (calls : List TDCall) :
    (TestDataGenerator.init F settingsLocale loc1).st = F.seed 42
  ∧ (loc1 = loc2 →
      runCalls F (TestDataGenerator.init F settingsLocale loc1) calls =
      runCalls F (TestDataGenerator.init F settingsLocale loc2) calls) :=
  ⟨rfl, fun h => by rw [h]⟩

/-- Witness for C7 with a concrete counter-based Faker, locale and call
sequence. -/
theorem test_data_deterministic_witness :
    runCalls natFaker (TestDataGenerator.init natFaker "en_US" none)
      [TDCall.checkout, TDCall.invalidCreds, TDCall.postals 2, TDCall.nameDraws 1] =
    runCalls natFaker (TestDataGenerator.init natFaker "en_US" none)
      [TDCall.checkout, TDCall.invalidCreds, TDCall.postals 2, TDCall.nameDraws 1] :=
  (test_data_deterministic ℕ natFaker "en_US" none none
    [TDCall.checkout, TDCall.invalidCreds, TDCall.postals 2, TDCall.nameDraws 1]).2 rfl

/-- C8: for each of the four sort tokens, sort_products dispatches exactly
one select command carrying the unmodified token to the sort control and
returns the page object state unchanged. -/
theorem sort_dispatch_pure (self : PageObjectState) (sort_option : String)
    (h : sort_option ∈ (["az", "za", "lohi", "hilo"] : List String)) :
    InventoryPage.sort_products self sort_option =
      (self, [DriverCmd.selectOption InventoryPage.PRODUCT_SORT_CONTAINER sort_option])
  ∧ (InventoryPage.sort_products self sort_option).1 = self :=
  ⟨rfl, rfl⟩

/-- Witness for C8 at a concrete page-object state and the token `az`. -/
theorem sort_dispatch_pure_witness :
    InventoryPage.sort_products demoPageState "az" =
      (demoPageState, [DriverCmd.selectOption ".product_sort_container" "az"]) :=
  (sort_dispatch_pure demoPageState "az" (by decide)).1

/-- C4: the is_visible / is_hidden probes never raise: they return true
exactly when the underlying wait reaches the requested state within the
effective timeout and false whenever the wait fails for any reason, and the
is_loaded probe built on them is likewise non-throwing. -/
theorem probe_timeout_to_bool (d : PageDom) (t0 : ℕ) (selector : String)
    (timeout : Option ℕ) :
    isOkE (BasePage.is_visibleE d t0 selector timeout) = true
  ∧ (BasePage.is_visibleE d t0 selector timeout = Except.ok true ↔
      d.waitVisible selector (effTimeout timeout t0) = Except.ok ())
  ∧ (BasePage.is_visibleE d t0 selector timeout = Except.ok false ↔
      ∃ e, d.waitVisible selector (effTimeout timeout t0) = Except.error e)
  ∧ isOkE (BasePage.is_hiddenE d t0 selector timeout) = true
  ∧ (BasePage.is_hiddenE d t0 selector timeout = Except.ok true ↔
      d.waitHidden selector (effTimeout timeout t0) = Except.ok ())
  ∧ isOkE (InventoryPage.is_loadedE d t0) = true := by
  have hvis : ∀ (sel : String) (t : Option ℕ),
      (∀ u, d.waitVisible sel (effTimeout t t0) = Except.ok u →
        BasePage.is_visibleE d t0 sel t = Except.ok true)
    ∧ (∀ e, d.waitVisible sel (effTimeout t t0) = Except.error e →
        BasePage.is_visibleE d t0 sel t = Except.ok false) := by
    intro sel t
    constructor
    · intro u hu
      unfold BasePage.is_visibleE pyTry
      rw [hu]
    · intro e he
      unfold BasePage.is_visibleE pyTry
      rw [he]
  have hhid : ∀ (sel : String) (t : Option ℕ),
      (∀ u, d.waitHidden sel (effTimeout t t0) = Except.ok u →
        BasePage.is_hiddenE d t0 sel t = Except.ok true)
    ∧ (∀ e, d.waitHidden sel (effTimeout t t0) = Except.error e →
        BasePage.is_hiddenE d t0 sel t = Except.ok false) := by
    intro sel t
    constructor
    · intro u hu
      unfold BasePage.is_hiddenE pyTry
      rw [hu]
    · intro e he
      unfold BasePage.is_hiddenE pyTry
      rw [he]
  refine ⟨?_, ?_, ?_, ?_, ?_, ?_⟩
  · cases hv : d.waitVisible selector (effTimeout timeout t0) with
    | ok u => rw [(hvis selector timeout).1 u hv]; rfl
    | error e => rw [(hvis selector timeout).2 e hv]; rfl
  · cases hv : d.waitVisible selector (effTimeout timeout t0) with
    | ok u =>
      cases u
      rw [(hvis selector timeout).1 () hv]
      simp
    | error e =>
      rw [(hvis selector timeout).2 e hv]
      simp
  · cases hv : d.waitVisible selector (effTimeout timeout t0) with
    | ok u =>
      cases u
      rw [(hvis selector timeout).1 () hv]
      simp
    | error e =>
      rw [(hvis selector timeout).2 e hv]
      exact ⟨fun _ => ⟨e, rfl⟩, fun _ => rfl⟩
  · cases hh : d.waitHidden selector (effTimeout timeout t0) with
    | ok u => rw [(hhid selector timeout).1 u hh]; rfl
    | error e => rw [(hhid selector timeout).2 e hh]; rfl
  · cases hh : d.waitHidden selector (effTimeout timeout t0) with
    | ok u =>
      cases u
      rw [(hhid selector timeout).1 () hh]
      simp
    | error e =>
      rw [(hhid selector timeout).2 e hh]
      simp
  · unfold InventoryPage.is_loadedE
    cases hv : d.waitVisible InventoryPage.INVENTORY_CONTAINER
        (effTimeout (some 10000) t0) with
    | ok u =>
      rw [(hvis InventoryPage.INVENTORY_CONTAINER (some 10000)).1 u hv]
      rfl
    | error e =>
      rw [(hvis InventoryPage.INVENTORY_CONTAINER (some 10000)).2 e hv]
      rfl

/-- C5: the page-fixture teardown never raises, writes the screenshot named
`failure_<test-name>.png` exactly when a failed call-phase report is
present, screenshot capture is enabled and the screenshot call succeeds,
converts a capture failure into a logged warning, and always closes the
page; the context fixture likewise tolerates tracing start/stop failures
and always closes the context. -/
theorem teardown_artifact_tolerant (env : TeardownEnv) (testName : String)
    (trace_on_failure : Bool) (traceStop traceStart : Except PyErr Unit) :
    (∃ r, pageTeardownE env testName = Except.ok r
      ∧ r.pageClosed = true
      ∧ (r.screenshotSaved = some ("failure_" ++ testName ++ ".png") ↔
          (env.hasFailed = true ∧ env.screenshot_on_failure = true ∧
            env.shot = Except.ok ()))
      ∧ (r.warnedScreenshot = true ↔
          (env.hasFailed = true ∧ env.screenshot_on_failure = true ∧
            ∃ e, env.shot = Except.error e)))
  ∧ (∃ c, contextTeardownE trace_on_failure traceStop = Except.ok c
      ∧ c.contextClosed = true)
  ∧ isOkE (contextSetupE trace_on_failure traceStart) = true := by
  refine ⟨?_, ?_, ?_⟩
  · obtain ⟨rc, sof, shot⟩ := env
    rcases rc with _ | b
    · cases sof
      · rcases shot with e | ⟨⟩
        · exact ⟨⟨none, false, true⟩, rfl, rfl,
            by simp [TeardownEnv.hasFailed], by simp [TeardownEnv.hasFailed]⟩
        · exact ⟨⟨none, false, true⟩, rfl, rfl,
            by simp [TeardownEnv.hasFailed], by simp [TeardownEnv.hasFailed]⟩
      · rcases shot with e | ⟨⟩
        · exact ⟨⟨none, false, true⟩, rfl, rfl,
            by simp [TeardownEnv.hasFailed], by simp [TeardownEnv.hasFailed]⟩
        · exact ⟨⟨none, false, true⟩, rfl, rfl,
            by simp [TeardownEnv.hasFailed], by simp [TeardownEnv.hasFailed]⟩
    · cases b
      · cases sof
        · rcases shot with e | ⟨⟩
          · exact ⟨⟨none, false, true⟩, rfl, rfl,
              by simp [TeardownEnv.hasFailed], by simp [TeardownEnv.hasFailed]⟩
          · exact ⟨⟨none, false, true⟩, rfl, rfl,
              by simp [TeardownEnv.hasFailed], by simp [TeardownEnv.hasFailed]⟩
        · rcases shot with e | ⟨⟩
          · exact ⟨⟨none, false, true⟩, rfl, rfl,
              by simp [TeardownEnv.hasFailed], by simp [TeardownEnv.hasFailed]⟩
          · exact ⟨⟨none, false, true⟩, rfl, rfl,
              by simp [TeardownEnv.hasFailed], by simp [TeardownEnv.hasFailed]⟩
      · cases sof
        · rcases shot with e | ⟨⟩
          · exact ⟨⟨none, false, true⟩, rfl, rfl,
              by simp [TeardownEnv.hasFailed], by simp [TeardownEnv.hasFailed]⟩
          · exact ⟨⟨none, false, true⟩, rfl, rfl,
              by simp [TeardownEnv.hasFailed], by simp [TeardownEnv.hasFailed]⟩
        · rcases shot with e | ⟨⟩
          · exact ⟨⟨none, true, true⟩, rfl, rfl,
              by simp [TeardownEnv.hasFailed], by simp [TeardownEnv.hasFailed]⟩
          · exact ⟨⟨some ("failure_" ++ testName ++ ".png"), false, true⟩, rfl, rfl,
              by simp [TeardownEnv.hasFailed], by simp [TeardownEnv.hasFailed]⟩
  · cases trace_on_failure with
    | false => exact ⟨⟨false, false, true⟩, rfl, rfl⟩
    | true =>
      rcases traceStop with e | ⟨⟩
      · exact ⟨⟨false, true, true⟩, rfl, rfl⟩
      · exact ⟨⟨true, false, true⟩, rfl, rfl⟩
  · cases trace_on_failure with
    | false => rfl
    | true =>
      rcases traceStart with e | ⟨⟩
      · rfl
      · rfl

/-- C1: whenever the three summary reads succeed, verify_total_calculation
returns true exactly when the absolute difference between
`round(subtotal + tax, 2)` and the displayed total is strictly below
0.01. -/
theorem verify_total_epsilon (d : PageDom) (t0 : ℕ) (subtotal tax total : ℚ)
    (hs : CheckoutStepTwoPage.get_subtotal d t0 = Except.ok subtotal)
    (ht : CheckoutStepTwoPage.get_tax d t0 = Except.ok tax)
    (hw : CheckoutStepTwoPage.get_total d t0 = Except.ok total) :
    CheckoutStepTwoPage.verify_total_calculation d t0 = Except.ok true ↔
      |pyRound2 (subtotal + tax) - total| < 1/100 := by
  unfold CheckoutStepTwoPage.verify_total_calculation
  rw [hs, ht, hw]
  show Except.ok (decide (pyAbs (pyRound2 (subtotal + tax) - total) < 1/100)) =
      Except.ok true ↔ |pyRound2 (subtotal + tax) - total| < 1/100
  rw [show pyAbs (pyRound2 (subtotal + tax) - total) =
      |pyRound2 (subtotal + tax) - total| from pyAbs_eq_abs _]
  simp

/-- Witness for C1 on a rendered overview page with subtotal 32.39,
tax 2.59, total 34.98. -/
theorem verify_total_epsilon_witness :
    CheckoutStepTwoPage.verify_total_calculation demoCheckoutDom 30000 =
      Except.ok true := by
  have e1 : CheckoutStepTwoPage.get_subtotal demoCheckoutDom 30000 =
      Except.ok ((digitsVal ['3', '2'] : ℚ) +
        (digitsVal ['3', '9'] : ℚ) / 10 ^ (['3', '9'] : List Char).length) := rfl
  have e2 : CheckoutStepTwoPage.get_tax demoCheckoutDom 30000 =
      Except.ok ((digitsVal ['2'] : ℚ) +
        (digitsVal ['5', '9'] : ℚ) / 10 ^ (['5', '9'] : List Char).length) := rfl
  have e3 : CheckoutStepTwoPage.get_total demoCheckoutDom 30000 =
      Except.ok ((digitsVal ['3', '4'] : ℚ) +
        (digitsVal ['9', '8'] : ℚ) / 10 ^ (['9', '8'] : List Char).length) := rfl
  have h := verify_total_epsilon demoCheckoutDom 30000 _ _ _ e1 e2 e3
  have d1 : digitsVal ['3', '2'] = 32 := by decide
  have d2 : digitsVal ['3', '9'] = 39 := by decide
  have d3 : digitsVal ['2'] = 2 := by decide
  have d4 : digitsVal ['5', '9'] = 59 := by decide
  have d5 : digitsVal ['3', '4'] = 34 := by decide
  have d6 : digitsVal ['9', '8'] = 98 := by decide
  have l1 : (['3', '9'] : List Char).length = 2 := rfl
  have l2 : (['5', '9'] : List Char).length = 2 := rfl
  have l3 : (['9', '8'] : List Char).length = 2 := rfl
  rw [d1, d2, d3, d4, d5, d6, l1, l2, l3] at h
  apply h.mpr
  unfold pyRound2 pyRoundHalfEven
  norm_num

/-- Membership form of the digit check. -/
theorem allDigits_mem {l : List Char} (h : allDigits l = true) {c : Char}
    (hc : c ∈ l) : c.isDigit = true := by
  unfold allDigits at h
  rw [List.all_eq_true] at h
  exact h c hc

/-- Float parsing of a sign-free digits-and-dot list skips the sign branch. -/
theorem pyFloatParseL_of_digits_dot {l : List Char} (hne : l ≠ [])
    (hmem : ∀ c ∈ l, c.isDigit = true ∨ c = '.') :
    pyFloatParseL l = pyFloatDigits l := by
  have hnws : ∀ c ∈ l, isPyWs c = false := by
    intro c hc
    rcases hmem c hc with h | rfl
    · exact isPyWs_eq_false_of_digit h
    · decide
  unfold pyFloatParseL
  rw [stripWs_eq_self hnws]
  cases l with
  | nil => exact absurd rfl hne
  | cons c0 rest =>
    have h0 := hmem c0 (List.mem_cons_self c0 rest)
    have h1 : c0 ≠ '-' := by
      rcases h0 with h | rfl
      · exact digit_ne h (by decide)
      · decide
    have h2 : c0 ≠ '+' := by
      rcases h0 with h | rfl
      · exact digit_ne h (by decide)
      · decide
    show (if c0 = '-' then (pyFloatDigits rest).map Neg.neg
        else if c0 = '+' then pyFloatDigits rest
        else pyFloatDigits (c0 :: rest)) = pyFloatDigits (c0 :: rest)
    rw [if_neg h1, if_neg h2]

/-- C6 counterexample: the price conversion applied by the price query
methods fails outright on a currency text with a non-numeric prefix before
the dollar sign (Python raises ValueError), instead of returning the amount
after the dollar sign. -/
theorem price_parse_prefix_counterexample :
    parsePriceText "Item total: $32.39" = none
  ∧ parsePrices ["Item total: $32.39"] = Except.error PyErr.valueError :=
  ⟨rfl, rfl⟩

/-- C6 amended: for a text that is exactly a dollar sign followed by a
decimal amount, the conversion strips the dollar sign and returns the
numeric amount. -/
theorem price_parse_amended (ipart fpart : List Char)
    (hi : ipart ≠ []) (hf : fpart ≠ [])
    (hdi : allDigits ipart = true) (hdf : allDigits fpart = true) :
    parsePriceText ("$" ++ String.mk ipart ++ "." ++ String.mk fpart) =
      some ((digitsVal ipart : ℚ) + (digitsVal fpart : ℚ) / 10 ^ fpart.length) := by
  have hmem : ∀ c ∈ ipart ++ '.' :: fpart, c.isDigit = true ∨ c = '.' := by
    intro c hc
    rcases List.mem_append.mp hc with h1 | h2
    · exact Or.inl (allDigits_mem hdi h1)
    · rcases List.mem_cons.mp h2 with rfl | h3
      · exact Or.inr rfl
      · exact Or.inl (allDigits_mem hdf h3)
  have hne : ipart ++ '.' :: fpart ≠ [] := by
    intro he
    simp at he
  have hdata : ("$" ++ String.mk ipart ++ "." ++ String.mk fpart).data
      = '$' :: (ipart ++ '.' :: fpart) := by
    show ((('$' :: ipart) ++ ['.']) ++ fpart) = '$' :: (ipart ++ '.' :: fpart)
    simp
  have hall : ∀ c ∈ ipart ++ '.' :: fpart, (fun c => c != '$') c = true := by
    intro c hc
    rcases hmem c hc with h | rfl
    · exact bne_iff_ne.mpr (digit_ne h (by decide))
    · decide
  have hfil : List.filter (fun c => c != '$') ('$' :: (ipart ++ '.' :: fpart))
      = ipart ++ '.' :: fpart := by
    rw [List.filter_cons, if_neg (by decide), List.filter_eq_self.mpr hall]
  have hdoti : '.' ∉ ipart := fun hm => absurd (allDigits_mem hdi hm) (by decide)
  have hdotf : '.' ∉ fpart := fun hm => absurd (allDigits_mem hdf hm) (by decide)
  have h1 : parsePriceText ("$" ++ String.mk ipart ++ "." ++ String.mk fpart)
      = pyFloatParseL (List.filter (fun c => c != '$')
          (("$" ++ String.mk ipart ++ "." ++ String.mk fpart).data)) := rfl
  rw [h1, hdata, hfil, pyFloatParseL_of_digits_dot hne hmem]
  unfold pyFloatDigits
  rw [splitOnChar_append hdoti, splitOnChar_of_not_mem hdotf]
  show (if (ipart ≠ [] ∨ fpart ≠ []) ∧ allDigits ipart = true ∧ allDigits fpart = true then
      some ((digitsVal ipart : ℚ) + (digitsVal fpart : ℚ) / 10 ^ fpart.length)
    else none) =
    some ((digitsVal ipart : ℚ) + (digitsVal fpart : ℚ) / 10 ^ fpart.length)
  rw [if_pos ⟨Or.inl hi, hdi, hdf⟩]

/-- Witness for the amended C6 at the concrete rendered text `$29.99`. -/
theorem price_parse_amended_witness :
    parsePriceText "$29.99" = some ((2999 : ℚ) / 100) := by
  have h := price_parse_amended ['2', '9'] ['9', '9']
    (by decide) (by decide) (by decide) (by decide)
  have hs : ("$" ++ String.mk ['2', '9'] ++ "." ++ String.mk ['9', '9']) = "$29.99" := by
    decide
  rw [hs] at h
  rw [h]
  have d1 : digitsVal ['2', '9'] = 29 := by decide
  have d2 : digitsVal ['9', '9'] = 99 := by decide
  have hl : (['9', '9'] : List Char).length = 2 := rfl
  rw [d1, d2, hl]
  simp only [Option.some.injEq]
  norm_num

/-- C9 counterexample: with a single rendered price text that is not
currency-formatted, get_product_price_by_index at an out-of-range index
raises ValueError (the prices are parsed before the bound check) instead of
returning 0.0. -/
theorem index_ops_counterexample :
    (badPriceDom.allTexts InventoryPage.INVENTORY_ITEM_PRICE).length = 1
  ∧ InventoryPage.get_product_price_by_index badPriceDom 5 =
      Except.error PyErr.valueError :=
  ⟨rfl, rfl⟩

/-- C9 amended: for indexes at or past the number of matching elements, the
index-based operations degrade silently — name lookup returns the empty
string, price lookup returns 0.0 provided every rendered price text parses,
and the index-based click operations dispatch no click. -/
theorem index_ops_degrade (d : PageDom) (index : ℕ) :
    ((InventoryPage.get_all_product_names d).length ≤ index →
      InventoryPage.get_product_name_by_index d index = "")
  ∧ (∀ prices, InventoryPage.get_all_product_prices d = Except.ok prices →
      prices.length ≤ index →
      InventoryPage.get_product_price_by_index d index = Except.ok 0)
  ∧ (d.elemCount InventoryPage.ADD_TO_CART_BUTTON ≤ index →
      InventoryPage.add_product_to_cart_by_index d index = [])
  ∧ (d.elemCount CartPage.REMOVE_BUTTON ≤ index →
      CartPage.remove_item_by_index d index = []) := by
  refine ⟨?_, ?_, ?_, ?_⟩
  · intro hge
    unfold InventoryPage.get_product_name_by_index
    rw [dif_neg (by omega)]
  · intro prices hok hge
    unfold InventoryPage.get_product_price_by_index
    rw [hok]
    show (if h : index < prices.length then Except.ok (prices.get ⟨index, h⟩)
        else Except.ok 0) = Except.ok 0
    rw [dif_neg (by omega)]
  · intro hge
    unfold InventoryPage.add_product_to_cart_by_index
    rw [if_neg (by omega)]
  · intro hge
    unfold CartPage.remove_item_by_index
    rw [if_neg (by omega)]

/-- Witness for the amended C9 on an empty page at index 3. -/
theorem index_ops_degrade_witness :
    InventoryPage.get_product_name_by_index emptyDom 3 = ""
  ∧ InventoryPage.get_product_price_by_index emptyDom 3 = Except.ok 0
  ∧ InventoryPage.add_product_to_cart_by_index emptyDom 3 = []
  ∧ CartPage.remove_item_by_index emptyDom 3 = [] := by
  obtain ⟨h1, h2, h3, h4⟩ := index_ops_degrade emptyDom 3
  exact ⟨h1 (by decide), h2 [] rfl (by decide), h3 (by decide), h4 (by decide)⟩

/-- C10 counterexample: with the badge visible but carrying a non-numeric
text, both badge-count queries raise ValueError (Python `int()` fails), so
they are not raise-free on every page state. -/
theorem badge_count_counterexample :
    BasePage.is_visible badBadgeDom 30000 InventoryPage.SHOPPING_CART_BADGE
      (some 2000) = true
  ∧ InventoryPage.get_cart_item_count badBadgeDom 30000 =
      Except.error PyErr.valueError
  ∧ CartPage.get_cart_badge_count badBadgeDom 30000 =
      Except.error PyErr.valueError :=
  ⟨rfl, rfl, rfl⟩

/-- C10 amended: both badge-count queries return 0 whenever the 2000 ms
visibility probe fails, and return the badge text parsed as an integer
whenever the probe succeeds, the text read succeeds and the text is a
decimal integer. -/
theorem badge_count_probe (d : PageDom) (t0 : ℕ) :
    (BasePage.is_visible d t0 InventoryPage.SHOPPING_CART_BADGE (some 2000) = false →
      InventoryPage.get_cart_item_count d t0 = Except.ok 0)
  ∧ (∀ (text : String) (n : ℤ),
      BasePage.is_visible d t0 InventoryPage.SHOPPING_CART_BADGE (some 2000) = true →
      BasePage.get_text d t0 InventoryPage.SHOPPING_CART_BADGE none = Except.ok text →
      pyIntParse text = some n →
      InventoryPage.get_cart_item_count d t0 = Except.ok n)
  ∧ (BasePage.is_visible d t0 CartPage.SHOPPING_CART_BADGE (some 2000) = false →
      CartPage.get_cart_badge_count d t0 = Except.ok 0)
  ∧ (∀ (text : String) (n : ℤ),
      BasePage.is_visible d t0 CartPage.SHOPPING_CART_BADGE (some 2000) = true →
      BasePage.get_text d t0 CartPage.SHOPPING_CART_BADGE none = Except.ok text →
      pyIntParse text = some n →
      CartPage.get_cart_badge_count d t0 = Except.ok n) := by
  refine ⟨?_, ?_, ?_, ?_⟩
  · intro hv
    unfold InventoryPage.get_cart_item_count
    rw [if_neg (by simp [hv])]
  · intro text n hv htext hparse
    unfold InventoryPage.get_cart_item_count
    rw [if_pos hv, htext]
    show (match pyIntParse text with
      | some n => Except.ok n
      | none => Except.error PyErr.valueError) = Except.ok n
    rw [hparse]
  · intro hv
    unfold CartPage.get_cart_badge_count
    rw [if_neg (by simp [hv])]
  · intro text n hv htext hparse
    unfold CartPage.get_cart_badge_count
    rw [if_pos hv, htext]
    show (match pyIntParse text with
      | some n => Except.ok n
      | none => Except.error PyErr.valueError) = Except.ok n
    rw [hparse]

/-- Witness for the amended C10: a visible badge showing "3" yields 3, an
absent badge yields 0. -/
theorem badge_count_probe_witness :
    InventoryPage.get_cart_item_count badgeThreeDom 30000 = Except.ok 3
  ∧ CartPage.get_cart_badge_count emptyDom 30000 = Except.ok 0 := by
  constructor
  · exact (badge_count_probe badgeThreeDom 30000).2.1 "3" 3 rfl rfl (by decide)
  · exact (badge_count_probe emptyDom 30000).2.2.1 rfl

end Spec2Proof
